import Mathlib

/-!
Verification of the aider-api server (src/aider_api.py) against its
natural-language specification.  The Python code is shallowly embedded:
the pure text-processing core of `collect_aider_output` (line splitting,
rstrip normalization, error classification, command construction, the
dual-channel drain loops for streaming and aggregate mode, pydantic
request validation and the workspace lifecycle) is translated into
executable Lean definitions, and the specification claims are settled as
theorems about those definitions.
-/

namespace Aider

/-! ### Basic string machinery (Python `in`, `rstrip`, line splitting) -/

/-- Whether the first char list is a prefix of the second. -/
def isPrefixOfL : List Char → List Char → Bool
  | [], _ => true
  | _ :: _, [] => false
  | a :: as, b :: bs => a == b && isPrefixOfL as bs

/-- Python substring test `needle in hay` on char lists. -/
def containsSubL : List Char → List Char → Bool
  | [], needle => needle.isEmpty
  | c :: t, needle => isPrefixOfL needle (c :: t) || containsSubL t needle

/-- Python substring test `needle in hay` on strings. -/
def strContains (hay needle : String) : Bool :=
  containsSubL hay.data needle.data

/-- The ASCII whitespace characters stripped by Python `str.rstrip()`
(space, tab, newline, carriage return, vertical tab, form feed). -/
def isPySpace (c : Char) : Bool :=
  c = ' ' || c = '\t' || c = '\n' || c = '\r' || c = Char.ofNat 11 || c = Char.ofNat 12

/-- Python `str.rstrip()` on a char list: drop trailing whitespace. -/
def rstripL (l : List Char) : List Char :=
  (l.reverse.dropWhile isPySpace).reverse

/-- Python `str.rstrip()` on strings. -/
def rstripS (s : String) : String :=
  String.mk (rstripL s.data)

/-- Split a char list into segments, each ending at a `'\n'` (the newline
kept); a trailing segment without a newline is kept as a final piece.
These are exactly the successive chunks `asyncio.StreamReader.readline`
returns for that byte content (readline splits on `b'\n'` only). -/
def splitNlAux : List Char → List Char → List (List Char)
  | [], acc => if acc.isEmpty then [] else [acc.reverse]
  | c :: rest, acc =>
    if c = '\n' then (acc.reverse ++ ['\n']) :: splitNlAux rest []
    else splitNlAux rest (c :: acc)

/-- The successive non-empty chunks `readline` yields for a channel whose
complete output is `s` (streaming-mode reads, aider_api.py lines 103-106). -/
def readline_chunks (s : String) : List String :=
  (splitNlAux s.data []).map String.mk

/-- Model of Python `str.splitlines(keepends=True)` as used at
aider_api.py lines 163 and 165.  The accumulated line lists produced from
it are only ever recombined with `"".join`, and `"".join(s.splitlines(True))
equals `s` exactly, so splitting at `'\n'` alone yields the same joined
strings as Python's richer line-boundary set does. -/
def splitlines_keepends (s : String) : List String :=
  (splitNlAux s.data []).map String.mk

/-- Concatenation of a list of char lists. -/
def charJoin (ls : List (List Char)) : List Char :=
  ls.foldr (fun a b => a ++ b) []

/-- The final raw value streaming mode produces for one channel: each
readline chunk is `rstrip`ped, a single `"\n"` appended, and the results
concatenated (aider_api.py lines 108-121, 126-127). -/
def normalize_lines (s : String) : String :=
  String.join ((readline_chunks s).map (fun c => rstripS c ++ "\n"))

/-! ### Error classification (aider_api.py lines 130-133 and 182-185) -/

/-- The troubleshooting-link substring tested on captured stdout. -/
def troubleshooting_url : String := "https://aider.chat/docs/troubleshooting"

/-- The missing-key page substring tested on captured stdout. -/
def models_and_keys : String := "models-and-keys.html"

/-- Error classification applied once to the final raw stdout: the
troubleshooting link sets the error to "something went wrong"; the
models-and-keys page, tested only inside that branch, appends
", AI key or model not found".  `none` models an absent error field. -/
def classify_error (s : String) : Option String :=
  if strContains s troubleshooting_url then
    some (if strContains s models_and_keys then
            "something went wrong" ++ ", AI key or model not found"
          else "something went wrong")
  else none

/-! ### Results and streamed events (aider_api.py lines 94-187) -/

/-- The aggregate result object: captured stdout, captured stderr, and the
optional error classification (`none` models an absent "error" key). -/
structure AiderResult where
  rawStdout : String
  rawStderr : String
  error : Option String := none
deriving DecidableEq, Repr

/-- Build the final result from the accumulated per-channel line lists,
joining them and classifying the joined stdout, exactly as the code does
after the drain (lines 125-133 and 177-185). -/
def mk_result (out_lines err_lines : List String) : AiderResult :=
  { rawStdout := String.join out_lines
    rawStderr := String.join err_lines
    error := classify_error (String.join out_lines) }

/-- One iteration's worth of input to the drain loop: either the pair of
chunks the two concurrent reads returned (`""` standing for an empty read,
i.e. end-of-stream), or an exception raised while reading, carrying its
message. -/
inductive ReadStep where
  | chunks (sout serr : String)
  | fail (msg : String)
deriving DecidableEq, Repr

/-- A server-sent event produced in streaming mode: a `progress` event
carrying the source channel name and a content line, the terminal
`complete` event carrying the aggregate result, or the terminal `error`
event carrying a failure description. -/
inductive Event where
  | progress (src : String) (content : String)
  | complete (result : AiderResult)
  | error (msg : String)
deriving DecidableEq, Repr

/-- Whether an event is terminal (`complete` or `error`). -/
def isTerminalEvent : Event → Bool
  | .progress _ _ => false
  | .complete _ => true
  | .error _ => true

/-- Whether an event is a progress event whose source channel is one of
the two legal values "stdout" and "stderr". -/
def isProgressOk : Event → Bool
  | .progress src _ => decide (src = "stdout" ∨ src = "stderr")
  | _ => false

/-- The streaming-mode drain loop `event_generator` (lines 96-147),
as a function from the accumulated line lists and the remaining read
iterations to the emitted event sequence.  Each iteration reads both
channels (one `ReadStep`); a non-empty stdout chunk is rstripped,
recorded with a trailing newline and emitted as a progress event, then
likewise for stderr; when both reads are empty in the same iteration the
`complete` event with the classified result is emitted and the loop
stops; a read exception emits the `error` event and stops.  An exhausted
step list models end-of-stream on both channels (readline returns empty
forever afterwards). -/
def event_generator : List String → List String → List ReadStep → List Event
  | out_lines, err_lines, [] => [Event.complete (mk_result out_lines err_lines)]
  | _, _, ReadStep.fail msg :: _ =>
      [Event.error ("Failed to process output: " ++ msg)]
  | out_lines, err_lines, ReadStep.chunks so se :: rest =>
      if so = "" ∧ se = "" then [Event.complete (mk_result out_lines err_lines)]
      else
        (if so = "" then [] else [Event.progress "stdout" (rstripS so)]) ++
        (if se = "" then [] else [Event.progress "stderr" (rstripS se)]) ++
        event_generator
          (if so = "" then out_lines else out_lines ++ [rstripS so ++ "\n"])
          (if se = "" then err_lines else err_lines ++ [rstripS se ++ "\n"])
          rest

/-- The aggregate-mode drain loop (lines 155-173): each iteration reads
both channels; non-empty chunks are appended to the line lists split with
`splitlines(keepends=True)`; the loop stops when both reads are empty in
the same iteration; a read exception appends an error line to the stderr
lines and stops. -/
def agg_drain : List String → List String → List ReadStep → List String × List String
  | out_lines, err_lines, [] => (out_lines, err_lines)
  | out_lines, err_lines, ReadStep.fail msg :: _ =>
      (out_lines, err_lines ++ ["Error: Failed to process output: " ++ msg ++ "\n"])
  | out_lines, err_lines, ReadStep.chunks so se :: rest =>
      if so = "" ∧ se = "" then (out_lines, err_lines)
      else
        agg_drain
          (if so = "" then out_lines else out_lines ++ splitlines_keepends so)
          (if se = "" then err_lines else err_lines ++ splitlines_keepends se)
          rest

/-- The aggregate-mode result: drain, then join and classify
(lines 175-187; `process.wait()` only collects the exit code, which the
result does not depend on). -/
def agg_final (steps : List ReadStep) : AiderResult :=
  mk_result (agg_drain [] [] steps).1 (agg_drain [] [] steps).2

/-- Pair up the two channels' chunk sequences into drain iterations: each
iteration reads both channels concurrently, an exhausted channel
contributing an empty read while the other still produces chunks. -/
def zipPad : List String → List String → List ReadStep
  | [], es => es.map (fun e => ReadStep.chunks "" e)
  | o :: os, [] => ReadStep.chunks o "" :: zipPad os []
  | o :: os, e :: es => ReadStep.chunks o e :: zipPad os es

/-- The result carried by a trailing `complete` event, if any. -/
def terminal_result (evs : List Event) : Option AiderResult :=
  match evs.getLast? with
  | some (Event.complete r) => some r
  | _ => none

/-- What `collect_aider_output` hands back to the route handler: an event
sequence (streaming success path) or a single aggregate result object. -/
inductive CollectResult where
  | events (evs : List Event)
  | aggregate (r : AiderResult)
deriving DecidableEq, Repr

/-- Whether a `CollectResult` is an event sequence. -/
def is_events : CollectResult → Bool
  | .events _ => true
  | .aggregate _ => false

/-- Whether a string is non-empty. -/
def str_nonempty (s : String) : Bool :=
  !s.data.isEmpty

/-- The core operation `collect_aider_output` (lines 35-187).  The
request fields are passed through as in the source; the interaction with
the operating system is abstracted by `launch_fail` (the exception
message if `asyncio.create_subprocess_exec` raised, lines 78-92) and by
the child's complete per-channel outputs `child_out`/`child_err`.  On
launch failure the except-branch returns the aggregate-shaped dictionary
with empty stdout and the failure message as stderr, regardless of
`stream`.  Otherwise streaming mode returns the generator's event
sequence over the readline chunk pairs, and aggregate mode drains via
`read()`, which returns each channel's entire remaining output as one
chunk followed by empty reads. -/
def collect_aider_output (message : String) (files : Option (List (String × String)))
    (auto_commits dirty_commits dry_run : Bool) (root : String) (stream : Bool)
    (launch_fail : Option String) (child_out child_err : String) : CollectResult :=
  match launch_fail with
  | some e =>
      CollectResult.aggregate
        { rawStdout := ""
          rawStderr := "Error: Failed to start aider process: " ++ e ++ "\n"
          error := none }
  | none =>
      if stream then
        CollectResult.events
          (event_generator [] [] (zipPad (readline_chunks child_out) (readline_chunks child_err)))
      else
        CollectResult.aggregate (agg_final [ReadStep.chunks child_out child_err])

/-- The final aggregate-shaped value a request delivers: the lone result
in aggregate mode, the payload of the trailing `complete` event in
streaming mode. -/
def request_final (message : String) (files : Option (List (String × String)))
    (auto_commits dirty_commits dry_run : Bool) (root : String) (stream : Bool)
    (child_out child_err : String) : Option AiderResult :=
  match collect_aider_output message files auto_commits dirty_commits dry_run root stream
      none child_out child_err with
  | CollectResult.events evs => terminal_result evs
  | CollectResult.aggregate r => some r

/-! ### Paths and argument-vector construction (aider_api.py lines 41-71) -/

/-- Whether a path is absolute (starts with '/'), as `os.path.join` tests. -/
def isAbsPath (p : String) : Bool :=
  match p.data with
  | '/' :: _ => true
  | _ => false

/-- Whether a string's last character is '/'. -/
def lastIsSlash (s : String) : Bool :=
  match s.data.getLast? with
  | some c => c = '/'
  | none => false

/-- POSIX `os.path.join(base, p)` for two components: an absolute second
component discards the base; otherwise the parts are concatenated with a
'/' inserted unless the base is empty or already ends in '/'.  No
normalization of ".." segments is performed — that happens only when the
operating system resolves the path. -/
def py_path_join (base p : String) : String :=
  if isAbsPath p then p
  else if base = "" then p
  else if lastIsSlash base then base ++ p
  else base ++ "/" ++ p

/-- Python truthiness of the optional files dict: `None` and `{}` are
falsy (the source guards both the write loop and the argv extension with
`if files:`). -/
def dict_truthy : Option (List (String × String)) → Bool
  | none => false
  | some l => !l.isEmpty

/-- The write targets the materialization loop produces (lines 43-47):
each filename is joined to the temp directory with `os.path.join` and the
content written there verbatim.  There is no validation step and no
failure case. -/
def materialize_targets (temp_dir : String) (files : List (String × String)) :
    List (String × String) :=
  files.map (fun p => (py_path_join temp_dir p.1, p.2))

/-- The aider command line (lines 54-71): executable, the message as one
argument, the three toggle flags, the model-warning suppression flag, the
prompt-confirmation flag, then the materialized file paths in input
order (appended only when the files dict is truthy). -/
def build_cmd (aider_path message : String) (auto_commits dirty_commits dry_run : Bool)
    (temp_dir : String) (files : Option (List (String × String))) : List String :=
  [aider_path, "--message", message,
   if auto_commits then "--auto-commits" else "--no-auto-commits",
   if dirty_commits then "--dirty-commits" else "--no-dirty-commits",
   if dry_run then "--dry-run" else "--no-dry-run",
   "--no-show-model-warnings",
   "--yes"] ++
  (if dict_truthy files then (files.getD []).map (fun p => py_path_join temp_dir p.1) else [])

/-- Modelled from the words of claim C9, for refinement comparison only:
the vector the claim enumerates — executable path, `--message` with the
instruction, one flag per toggle, a confirmation-suppressing flag, then
the materialized file paths — with no other elements. -/
def claim_cmd (aider_path message : String) (auto_commits dirty_commits dry_run : Bool)
    (temp_dir : String) (files : Option (List (String × String))) : List String :=
  [aider_path, "--message", message,
   if auto_commits then "--auto-commits" else "--no-auto-commits",
   if dirty_commits then "--dirty-commits" else "--no-dirty-commits",
   if dry_run then "--dry-run" else "--no-dry-run",
   "--yes"] ++
  (if dict_truthy files then (files.getD []).map (fun p => py_path_join temp_dir p.1) else [])

/-- Split a char list at '/' characters, keeping empty segments, like
Python `p.split("/")`. -/
def splitSlashAux : List Char → List Char → List String
  | [], acc => [String.mk acc.reverse]
  | c :: rest, acc =>
    if c = '/' then String.mk acc.reverse :: splitSlashAux rest []
    else splitSlashAux rest (c :: acc)

/-- Split a path into its '/'-separated segments. -/
def split_slash (p : String) : List String :=
  splitSlashAux p.data []

/-- One step of operating-system path resolution over a segment stack:
empty segments and "." are skipped, ".." pops the last directory, any
other segment is pushed. -/
def norm_step (stack : List String) (seg : String) : List String :=
  if seg = "" ∨ seg = "." then stack
  else if seg = ".." then stack.dropLast
  else stack ++ [seg]

/-- Whether a path segment survives resolution unchanged. -/
def keep_seg (s : String) : Bool :=
  !(s = "" || s = ".")

/-- The resolved segment stack of a path. -/
def resolve_segs (p : String) : List String :=
  (split_slash p).foldl norm_step []

/-- Whether the first segment list is a prefix of the second. -/
def segsPrefixOf : List String → List String → Bool
  | [], _ => true
  | _ :: _, [] => false
  | a :: as, b :: bs => if a = b then segsPrefixOf as bs else false

/-- Whether `target`, after resolution, still lies under directory
`base`. -/
def under_dir (base target : String) : Bool :=
  segsPrefixOf (resolve_segs base) (resolve_segs target)

/-! ### Request validation (aider_api.py lines 26-33, the pydantic model) -/

/-- The JSON fragment needed to model validation of a request body. -/
inductive Json where
  | null
  | str (s : String)
  | bool (b : Bool)
  | obj (fields : List (String × Json))

/-- The validated request object, with the model's declared defaults. -/
structure AiderRequest where
  message : String
  files : Option (List (String × String)) := none
  auto_commits : Bool := true
  dirty_commits : Bool := true
  dry_run : Bool := false
  root : String := "."
  stream : Bool := true
deriving DecidableEq, Repr

/-- Look up a field of a JSON object. -/
def lookup_field : List (String × Json) → String → Option Json
  | [], _ => none
  | (k, v) :: rest, key => if k = key then some v else lookup_field rest key

/-- A JSON value as a string, if it is one. -/
def as_str : Json → Option String
  | .str s => some s
  | _ => none

/-- Validate an optional boolean field against its declared default. -/
def parse_bool_default : Option Json → Bool → Option Bool
  | none, d => some d
  | some (.bool b), _ => some b
  | some _, _ => none

/-- Validate an optional string field against its declared default. -/
def parse_str_default : Option Json → String → Option String
  | none, d => some d
  | some (.str s), _ => some s
  | some _, _ => none

/-- Validate the `files` field: absent or `null` gives `None`; an object
all of whose values are strings gives the dict (an empty object included,
since the model declares `Optional[dict[str, str]] = None` with no
minimum-size constraint); anything else is a validation error. -/
def parse_files : Option Json → Option (Option (List (String × String)))
  | none => some none
  | some Json.null => some none
  | some (Json.obj fs) =>
      if fs.all (fun p => (as_str p.2).isSome) then
        some (some (fs.map (fun p => (p.1, (as_str p.2).getD ""))))
      else none
  | some _ => none

/-- Validation of a request body against the `AiderRequest` pydantic
model: `message` is a required string, every other field optional with
its default; a failure models the framework's 422 response. -/
def parse_aider_request : Json → Option AiderRequest
  | Json.obj fields => do
      let mj ← lookup_field fields "message"
      let msg ← as_str mj
      let fs ← parse_files (lookup_field fields "files")
      let ac ← parse_bool_default (lookup_field fields "auto_commits") true
      let dc ← parse_bool_default (lookup_field fields "dirty_commits") true
      let dr ← parse_bool_default (lookup_field fields "dry_run") false
      let rt ← parse_str_default (lookup_field fields "root") "."
      let st ← parse_bool_default (lookup_field fields "stream") true
      some { message := msg, files := fs, auto_commits := ac, dirty_commits := dc,
             dry_run := dr, root := rt, stream := st }
  | _ => none

/-! ### Workspace lifecycle trace (aider_api.py lines 41-205)

The `with tempfile.TemporaryDirectory()` block spans the whole body of
`collect_aider_output`, so the directory is removed exactly when that
coroutine returns.  In aggregate mode the coroutine itself runs the drain
and builds the result, so removal is the final step.  On launch failure
the except-branch builds the terminal result and returns, so removal
again follows immediately and is last.  In streaming mode, however, the
coroutine returns the *unstarted* async generator: the with-block exits —
removing the directory — before a single drain iteration has run; the
reads and the terminal event happen only later, when the response layer
consumes the generator. -/

/-- The externally visible steps of handling one request. -/
inductive Step where
  | createWorkspace
  | writeFiles
  | spawnProcess
  | spawnFailed
  | readBothChannels
  | emitTerminal
  | removeWorkspace
deriving DecidableEq, Repr

/-- The ordered step trace of one request, given the streaming flag,
whether the spawn raised, and the number of drain iterations the child's
output produces. -/
def request_trace (stream launch_failed : Bool) (iters : Nat) : List Step :=
  [Step.createWorkspace, Step.writeFiles] ++
  (if launch_failed then
    [Step.spawnFailed, Step.emitTerminal, Step.removeWorkspace]
  else if stream then
    [Step.spawnProcess, Step.removeWorkspace] ++
      List.replicate iters Step.readBothChannels ++ [Step.emitTerminal]
  else
    [Step.spawnProcess] ++ List.replicate iters Step.readBothChannels ++
      [Step.emitTerminal, Step.removeWorkspace])

end Aider

namespace Aider

/-! ### Helper lemmas -/

theorem data_append (s t : String) : (s ++ t).data = s.data ++ t.data := rfl

theorem mk_data (s : String) : String.mk s.data = s := rfl

theorem charJoin_cons (l : List Char) (ls : List (List Char)) :
    charJoin (l :: ls) = l ++ charJoin ls := rfl

theorem join_mk_foldl (ls : List (List Char)) :
    ∀ acc : String, List.foldl (· ++ ·) acc (ls.map String.mk) = String.mk (acc.data ++ charJoin ls) := by
  induction ls with
  | nil =>
      intro acc
      show acc = String.mk (acc.data ++ charJoin [])
      have h : charJoin ([] : List (List Char)) = [] := rfl
      rw [h, List.append_nil, mk_data]
  | cons l ls ih =>
      intro acc
      simp only [List.map_cons, List.foldl_cons]
      rw [ih (acc ++ String.mk l), charJoin_cons]
      have h2 : (acc ++ String.mk l).data = acc.data ++ l := rfl
      rw [h2, List.append_assoc]

theorem join_mk (ls : List (List Char)) :
    String.join (ls.map String.mk) = String.mk (charJoin ls) := by
  have h := join_mk_foldl ls ""
  have h0 : ("" : String).data = [] := rfl
  rw [h0, List.nil_append] at h
  exact h

theorem charJoin_splitNlAux (l : List Char) :
    ∀ acc, charJoin (splitNlAux l acc) = acc.reverse ++ l := by
  induction l with
  | nil =>
      intro acc
      cases acc with
      | nil => simp [splitNlAux, charJoin]
      | cons c cs => simp [splitNlAux, charJoin]
  | cons c rest ih =>
      intro acc
      by_cases hc : c = '\n'
      · subst hc
        have h1 : splitNlAux ('\n' :: rest) acc = (acc.reverse ++ ['\n']) :: splitNlAux rest [] := by
          simp [splitNlAux]
        rw [h1, charJoin_cons, ih []]
        simp
      · have h1 : splitNlAux (c :: rest) acc = splitNlAux rest (c :: acc) := by
          simp [splitNlAux, hc]
        rw [h1, ih (c :: acc)]
        simp [List.append_assoc]

theorem join_splitlines (s : String) : String.join (splitlines_keepends s) = s := by
  unfold splitlines_keepends
  rw [join_mk, charJoin_splitNlAux s.data []]
  simp [mk_data]

theorem splitNlAux_ne_nil (l : List Char) :
    ∀ acc p, p ∈ splitNlAux l acc → p ≠ [] := by
  induction l with
  | nil =>
      intro acc p hp
      cases acc with
      | nil => simp [splitNlAux] at hp
      | cons c cs =>
          simp only [splitNlAux] at hp
          simp at hp
          subst hp
          simp
  | cons c rest ih =>
      intro acc p hp
      by_cases hc : c = '\n'
      · subst hc
        have h1 : splitNlAux ('\n' :: rest) acc = (acc.reverse ++ ['\n']) :: splitNlAux rest [] := by
          simp [splitNlAux]
        rw [h1] at hp
        rcases List.mem_cons.mp hp with hp | hp
        · subst hp; simp
        · exact ih [] p hp
      · have h1 : splitNlAux (c :: rest) acc = splitNlAux rest (c :: acc) := by
          simp [splitNlAux, hc]
        rw [h1] at hp
        exact ih (c :: acc) p hp

theorem readline_chunks_ne_empty (s : String) :
    ∀ c ∈ readline_chunks s, c ≠ "" := by
  intro c hc
  unfold readline_chunks at hc
  rcases List.mem_map.mp hc with ⟨p, hp, hmk⟩
  intro hempty
  have hpd : p = [] := by
    have := congrArg String.data (hmk.trans hempty)
    simpa using this
  exact splitNlAux_ne_nil s.data [] p hp hpd

theorem event_generator_ne_nil (steps : List ReadStep) :
    ∀ a b, event_generator a b steps ≠ [] := by
  induction steps with
  | nil => intro a b; simp [event_generator]
  | cons s rest ih =>
      intro a b
      cases s with
      | fail msg => simp [event_generator]
      | chunks so se =>
          by_cases h : so = "" ∧ se = ""
          · simp [event_generator, h]
          · simp only [event_generator, if_neg h]
            intro hContra
            rcases List.append_eq_nil.mp hContra with ⟨-, h2⟩
            exact ih _ _ h2

theorem terminal_result_append (xs ys : List Event) (h : ys ≠ []) :
    terminal_result (xs ++ ys) = terminal_result ys := by
  unfold terminal_result
  rw [List.getLast?_append_of_ne_nil xs h]

theorem getLast?_cons_append_ne_nil {α : Type} (x : α) (l1 l2 : List α) (h : l2 ≠ []) :
    (x :: (l1 ++ l2)).getLast? = l2.getLast? := by
  rw [show x :: (l1 ++ l2) = (x :: l1) ++ l2 from rfl, List.getLast?_append_of_ne_nil _ h]

theorem getLast?_pair {α : Type} (a b : α) : ([a, b] : List α).getLast? = some b := rfl

theorem event_generator_step (so se : String) (rest : List ReadStep) (a b : List String)
    (h : ¬(so = "" ∧ se = "")) :
    terminal_result (event_generator a b (ReadStep.chunks so se :: rest)) =
      terminal_result (event_generator
        (if so = "" then a else a ++ [rstripS so ++ "\n"])
        (if se = "" then b else b ++ [rstripS se ++ "\n"]) rest) := by
  simp only [event_generator, if_neg h]
  exact terminal_result_append _ _ (event_generator_ne_nil _ _ _)

theorem event_generator_zipPad (os : List String) :
    ∀ (es a b : List String),
      (∀ o ∈ os, o ≠ "") → (∀ e ∈ es, e ≠ "") →
      terminal_result (event_generator a b (zipPad os es)) =
        some (mk_result (a ++ os.map (fun c => rstripS c ++ "\n"))
                        (b ++ es.map (fun c => rstripS c ++ "\n"))) := by
  induction os with
  | nil =>
      intro es
      induction es with
      | nil =>
          intro a b _ _
          simp [zipPad, event_generator, terminal_result]
      | cons e es ihe =>
          intro a b ho he
          have hne : e ≠ "" := he e (by simp)
          have hz : zipPad [] (e :: es) = ReadStep.chunks "" e :: zipPad [] es := by
            simp [zipPad]
          rw [hz, event_generator_step "" e _ a b (fun hh => hne hh.2)]
          rw [if_pos rfl, if_neg hne]
          rw [ihe a (b ++ [rstripS e ++ "\n"]) ho (fun x hx => he x (by simp [hx]))]
          simp
  | cons o os iho =>
      intro es a b ho he
      have hno : o ≠ "" := ho o (by simp)
      cases es with
      | nil =>
          have hz : zipPad (o :: os) [] = ReadStep.chunks o "" :: zipPad os [] := by
            simp [zipPad]
          rw [hz, event_generator_step o "" _ a b (fun hh => hno hh.1)]
          rw [if_neg hno, if_pos rfl]
          rw [iho [] (a ++ [rstripS o ++ "\n"]) b (fun x hx => ho x (by simp [hx])) (by simp)]
          simp
      | cons e es =>
          have hne : e ≠ "" := he e (by simp)
          have hz : zipPad (o :: os) (e :: es) = ReadStep.chunks o e :: zipPad os es := by
            simp [zipPad]
          rw [hz, event_generator_step o e _ a b (fun hh => hno hh.1)]
          rw [if_neg hno, if_neg hne]
          rw [iho es (a ++ [rstripS o ++ "\n"]) (b ++ [rstripS e ++ "\n"])
                (fun x hx => ho x (by simp [hx])) (fun x hx => he x (by simp [hx]))]
          simp
  -- end

theorem stream_final_eq (out err : String) :
    terminal_result (event_generator [] [] (zipPad (readline_chunks out) (readline_chunks err))) =
      some { rawStdout := normalize_lines out
             rawStderr := normalize_lines err
             error := classify_error (normalize_lines out) } := by
  rw [event_generator_zipPad (readline_chunks out) (readline_chunks err) [] []
        (readline_chunks_ne_empty out) (readline_chunks_ne_empty err)]
  simp [mk_result, normalize_lines]

theorem join_nil_str : String.join ([] : List String) = "" := rfl

theorem agg_final_single (out err : String) :
    agg_final [ReadStep.chunks out err] =
      { rawStdout := out, rawStderr := err, error := classify_error out } := by
  by_cases ho : out = "" <;> by_cases he : err = "" <;>
    simp [agg_final, agg_drain, ho, he, mk_result, join_splitlines, join_nil_str]

theorem request_final_stream (msg : String) (files : Option (List (String × String)))
    (ac dc dr : Bool) (root out err : String) :
    request_final msg files ac dc dr root true out err =
      some { rawStdout := normalize_lines out
             rawStderr := normalize_lines err
             error := classify_error (normalize_lines out) } := by
  simp [request_final, collect_aider_output, stream_final_eq]

theorem request_final_agg (msg : String) (files : Option (List (String × String)))
    (ac dc dr : Bool) (root out err : String) :
    request_final msg files ac dc dr root false out err =
      some { rawStdout := out, rawStderr := err, error := classify_error out } := by
  simp [request_final, collect_aider_output, agg_final_single]

/-- Claim C1: the classification of a final captured stdout `s` is:
troubleshooting link present but models-and-keys absent gives error
"something went wrong"; both present give "something went wrong, AI key
or model not found"; link absent gives no error field at all, even if
models-and-keys is present. -/
theorem c1_error_classification (s : String) :
    (strContains s troubleshooting_url = true → strContains s models_and_keys = false →
      classify_error s = some "something went wrong") ∧
    (strContains s troubleshooting_url = true → strContains s models_and_keys = true →
      classify_error s = some "something went wrong, AI key or model not found") ∧
    (strContains s troubleshooting_url = false → classify_error s = none) := by
  refine ⟨fun h1 h2 => ?_, fun h1 h2 => ?_, fun h1 => ?_⟩
  · simp [classify_error, h1, h2]
  · simp [classify_error, h1, h2]
  · simp [classify_error, h1]

/-- Witness for C1 at the concrete stdout consisting of the
troubleshooting link itself. -/
theorem c1_error_classification_witness :
    classify_error "https://aider.chat/docs/troubleshooting" = some "something went wrong" :=
  (c1_error_classification "https://aider.chat/docs/troubleshooting").1 (by decide) (by decide)

/-- Claim C2 as stated is false: with identical child output on both
channels, streaming and aggregate mode do not always agree on the final
raw values.  At stdout bytes "abc" (no trailing newline) the streaming
mode reports raw-stdout "abc\n" (readline chunk, rstripped, newline
appended) while aggregate mode reports the verbatim "abc". -/
theorem c2_mode_equivalence_counterexample :
    request_final "m" none true true false "." true "abc" "" ≠
      request_final "m" none true true false "." false "abc" "" := by decide

/-- Claim C2, amended: the two modes produce the same final raw-stdout,
raw-stderr and error values whenever each channel's output is already in
streaming-normalized form (every line "\n"-terminated with no extra
trailing whitespace, i.e. a fixpoint of the per-line rstrip-plus-newline
normalization); in general streaming mode delivers the normalization of
the raw output while aggregate mode delivers it verbatim. -/
theorem c2_mode_equivalence_amended (msg : String) (files : Option (List (String × String)))
    (ac dc dr : Bool) (root out err : String)
    (hout : normalize_lines out = out) (herr : normalize_lines err = err) :
    request_final msg files ac dc dr root true out err =
      request_final msg files ac dc dr root false out err := by
  rw [request_final_stream, request_final_agg, hout, herr]

/-- Witness for the amended C2 at the normalized child output "a\n". -/
theorem c2_mode_equivalence_witness :
    request_final "m" none true true false "." true "a\n" "" =
      request_final "m" none true true false "." false "a\n" "" :=
  c2_mode_equivalence_amended "m" none true true false "." "a\n" "" (by decide) (by decide)

/-- Claim C3 as stated is false: in streaming mode with a successful
launch and one drain iteration, the workspace removal is not the last
step of the trace — the with-block exits (removing the directory) when
the unstarted generator is returned, before the drain and the terminal
event. -/
theorem c3_release_last_counterexample :
    request_trace true false 1 =
      [Step.createWorkspace, Step.writeFiles, Step.spawnProcess, Step.removeWorkspace,
       Step.readBothChannels, Step.emitTerminal] ∧
    ¬((request_trace true false 1).getLast? = some Step.removeWorkspace) := by
  constructor
  · rfl
  · decide

/-- Claim C3, amended: the workspace directory is removed exactly once on
every path (so none remains after the request); in aggregate mode and on
launch failure the removal is the final step, but in streaming mode the
removal happens when the generator is returned — after the spawn, before
any drain read and before the terminal event. -/
theorem c3_workspace_release_amended (stream launch_failed : Bool) (iters : Nat) :
    Step.removeWorkspace ∈ request_trace stream launch_failed iters ∧
    (request_trace stream launch_failed iters).count Step.removeWorkspace = 1 ∧
    (stream = false ∨ launch_failed = true →
      (request_trace stream launch_failed iters).getLast? = some Step.removeWorkspace) ∧
    (stream = true ∧ launch_failed = false →
      request_trace stream launch_failed iters =
        [Step.createWorkspace, Step.writeFiles, Step.spawnProcess, Step.removeWorkspace] ++
          List.replicate iters Step.readBothChannels ++ [Step.emitTerminal]) := by
  cases stream <;> cases launch_failed <;>
    refine ⟨?_, ?_, ?_, ?_⟩ <;>
      simp [request_trace, List.count_append, List.count_replicate,
            List.getLast?_concat, getLast?_cons_append_ne_nil, getLast?_pair]

/-- Witness for the amended C3: in aggregate mode the removal is the
final step. -/
theorem c3_workspace_release_witness :
    (request_trace false false 0).getLast? = some Step.removeWorkspace :=
  (c3_workspace_release_amended false false 0).2.2.1 (Or.inl rfl)

theorem isProgressOk_stdout (x : String) : isProgressOk (Event.progress "stdout" x) = true := rfl

theorem isProgressOk_stderr (x : String) : isProgressOk (Event.progress "stderr" x) = true := rfl

theorem isTerminalEvent_progress (s x : String) :
    isTerminalEvent (Event.progress s x) = false := rfl

theorem shape_extend (xs ys : List Event)
    (hxs : xs.all (fun e => !isTerminalEvent e && isProgressOk e) = true)
    (hne : ys ≠ [])
    (h1 : ys.countP isTerminalEvent = 1)
    (h2 : ys.getLast?.map isTerminalEvent = some true)
    (h3 : ys.dropLast.all isProgressOk = true) :
    (xs ++ ys).countP isTerminalEvent = 1 ∧
    (xs ++ ys).getLast?.map isTerminalEvent = some true ∧
    (xs ++ ys).dropLast.all isProgressOk = true := by
  rw [List.all_eq_true] at hxs
  refine ⟨?_, ?_, ?_⟩
  · rw [List.countP_append]
    have hz : xs.countP isTerminalEvent = 0 := by
      rw [List.countP_eq_zero]
      intro e he
      have h := hxs e he
      simp only [Bool.and_eq_true, Bool.not_eq_true'] at h
      simp [h.1]
    rw [hz, h1]
  · rw [List.getLast?_append_of_ne_nil xs hne]
    exact h2
  · rw [List.dropLast_append_of_ne_nil xs hne, List.all_append]
    have hxs2 : xs.all isProgressOk = true := by
      rw [List.all_eq_true]
      intro e he
      have h := hxs e he
      simp only [Bool.and_eq_true] at h
      exact h.2
    rw [hxs2, h3]
    rfl

/-- Claim C4: in streaming mode, whatever the drain-iteration inputs,
the event sequence the generator produces contains exactly one terminal
event (`complete` or `error`), that terminal event is last, and every
event before it is a `progress` event whose source channel is "stdout"
or "stderr". -/
theorem c4_streaming_event_shape (a b : List String) (steps : List ReadStep) :
    (event_generator a b steps).countP isTerminalEvent = 1 ∧
    (event_generator a b steps).getLast?.map isTerminalEvent = some true ∧
    (event_generator a b steps).dropLast.all isProgressOk = true := by
  induction steps generalizing a b with
  | nil =>
      refine ⟨?_, ?_, ?_⟩ <;> simp [event_generator, isTerminalEvent]
  | cons s rest ih =>
      cases s with
      | fail msg =>
          refine ⟨?_, ?_, ?_⟩ <;> simp [event_generator, isTerminalEvent]
      | chunks so se =>
          by_cases h : so = "" ∧ se = ""
          · refine ⟨?_, ?_, ?_⟩ <;> simp [event_generator, h, isTerminalEvent]
          · simp only [event_generator, if_neg h]
            refine shape_extend _ _ ?_ (event_generator_ne_nil _ _ _)
              (ih _ _).1 (ih _ _).2.1 (ih _ _).2.2
            by_cases hso : so = "" <;> by_cases hse : se = "" <;>
              simp [hso, hse, isProgressOk_stdout, isProgressOk_stderr,
                    isTerminalEvent_progress]

/-- Claim C5: in both modes the drain loop concludes completion only in
an iteration whose two reads both returned empty in that same iteration;
a one-sided empty read does not stop it — the loop carries on to the
remaining iterations, re-reading both channels.  Streaming: the event
sequence collapses to the lone `complete` event exactly when both reads
of the first iteration are empty.  Aggregate: a both-empty iteration
returns the accumulators unchanged, ignoring the remaining steps, and
any other iteration recurses into the rest with both channels read
again. -/
theorem c5_drain_loop_termination (a b : List String) (so se : String) (rest : List ReadStep) :
    ((∃ r, event_generator a b (ReadStep.chunks so se :: rest) = [Event.complete r]) ↔
      (so = "" ∧ se = "")) ∧
    (so = "" ∧ se = "" →
      agg_drain a b (ReadStep.chunks so se :: rest) = (a, b)) ∧
    (¬(so = "" ∧ se = "") →
      agg_drain a b (ReadStep.chunks so se :: rest) =
        agg_drain (if so = "" then a else a ++ splitlines_keepends so)
                  (if se = "" then b else b ++ splitlines_keepends se) rest) ∧
    (¬(so = "" ∧ se = "") →
      event_generator a b (ReadStep.chunks so se :: rest) =
        ((if so = "" then [] else [Event.progress "stdout" (rstripS so)]) ++
         (if se = "" then [] else [Event.progress "stderr" (rstripS se)])) ++
        event_generator (if so = "" then a else a ++ [rstripS so ++ "\n"])
                        (if se = "" then b else b ++ [rstripS se ++ "\n"]) rest) := by
  refine ⟨⟨?_, ?_⟩, ?_, ?_, ?_⟩
  · rintro ⟨r, hr⟩
    by_contra h
    simp only [event_generator, if_neg h] at hr
    by_cases hso : so = ""
    · have hse : ¬se = "" := fun hse => h ⟨hso, hse⟩
      simp [hso, hse] at hr
    · simp [hso] at hr
  · rintro ⟨hso, hse⟩
    exact ⟨mk_result a b, by simp [event_generator, hso, hse]⟩
  · rintro ⟨hso, hse⟩
    simp [agg_drain, hso, hse]
  · intro h
    simp only [agg_drain, if_neg h]
  · intro h
    simp only [event_generator, if_neg h]

/-- Witness for C5: a both-empty iteration stops the aggregate drain at
once, leaving the accumulators untouched and ignoring later steps. -/
theorem c5_drain_loop_termination_witness :
    agg_drain [] [] [ReadStep.chunks "" "", ReadStep.chunks "x" "y"] = ([], []) :=
  (c5_drain_loop_termination [] [] "" "" [ReadStep.chunks "x" "y"]).2.1 ⟨rfl, rfl⟩

theorem isPrefixOfL_self_append (l t : List Char) : isPrefixOfL l (l ++ t) = true := by
  induction l with
  | nil => rfl
  | cons c cs ih => simp [isPrefixOfL, ih]

theorem containsSubL_here (needle tail : List Char) :
    containsSubL (needle ++ tail) needle = true := by
  cases needle with
  | nil =>
      cases tail with
      | nil => rfl
      | cons c t => simp [containsSubL, isPrefixOfL]
  | cons n ns =>
      have h := isPrefixOfL_self_append (n :: ns) tail
      rw [List.cons_append] at h
      simp [containsSubL, h]

theorem containsSubL_cons (c : Char) (hay needle : List Char)
    (h : containsSubL hay needle = true) : containsSubL (c :: hay) needle = true := by
  simp [containsSubL, h]

theorem containsSubL_append_left (pre hay needle : List Char)
    (h : containsSubL hay needle = true) : containsSubL (pre ++ hay) needle = true := by
  induction pre with
  | nil => simpa using h
  | cons c cs ih => simpa using containsSubL_cons c (cs ++ hay) needle ih

theorem str_nonempty_append_right (s t : String) (h : t.data ≠ []) :
    str_nonempty (s ++ t) = true := by
  have hne : s.data ++ t.data ≠ [] := fun hc => h (List.append_eq_nil.mp hc).2
  unfold str_nonempty
  rw [data_append]
  cases hx : s.data ++ t.data with
  | nil => exact absurd hx hne
  | cons a l => simp

/-- Claim C6: when the spawn raises, nothing escapes the operation — it
returns at once with the aggregate-shaped error result, whose raw-stdout
is empty and whose raw-stderr is non-empty and contains the failure
reason; no drain step runs, so the result does not depend on anything
the child would have written. -/
theorem c6_launch_failure (msg : String) (files : Option (List (String × String)))
    (ac dc dr stream : Bool) (root e out err out2 err2 : String) :
    (∃ r, collect_aider_output msg files ac dc dr root stream (some e) out err =
        CollectResult.aggregate r ∧
      r.rawStdout = "" ∧ str_nonempty r.rawStderr = true ∧
      strContains r.rawStderr e = true ∧ r.error = none) ∧
    collect_aider_output msg files ac dc dr root stream (some e) out err =
      collect_aider_output msg files ac dc dr root stream (some e) out2 err2 := by
  refine ⟨⟨_, rfl, rfl, ?_, ?_, rfl⟩, rfl⟩
  · exact str_nonempty_append_right _ "\n" (by decide)
  · show strContains (("Error: Failed to start aider process: " ++ e) ++ "\n") e = true
    unfold strContains
    have hdata : ((("Error: Failed to start aider process: " ++ e) ++ "\n")).data =
        ("Error: Failed to start aider process: ").data ++ (e.data ++ ("\n").data) := by
      rw [data_append, data_append, List.append_assoc]
    rw [hdata]
    exact containsSubL_append_left _ _ _ (containsSubL_here e.data _)

/-- Claim C10 (implicit): on spawn failure `collect_aider_output` returns
the aggregate mapping with empty raw-stdout, the failure message as
raw-stderr and no error key — and the very same value regardless of the
streaming flag, so a streaming caller receives no event sequence and no
terminal error event for a launch failure. -/
theorem c10_launch_failure_aggregate_shape (msg : String)
    (files : Option (List (String × String))) (ac dc dr stream : Bool)
    (root e out err : String) :
    collect_aider_output msg files ac dc dr root stream (some e) out err =
      CollectResult.aggregate
        { rawStdout := ""
          rawStderr := "Error: Failed to start aider process: " ++ e ++ "\n"
          error := none } ∧
    collect_aider_output msg files ac dc dr root true (some e) out err =
      collect_aider_output msg files ac dc dr root false (some e) out err ∧
    is_events (collect_aider_output msg files ac dc dr root stream (some e) out err) =
      false :=
  ⟨rfl, rfl, rfl⟩

theorem splitSlashAux_append (a b : List Char) :
    ∀ acc, splitSlashAux (a ++ '/' :: b) acc = splitSlashAux a acc ++ splitSlashAux b [] := by
  induction a with
  | nil => intro acc; simp [splitSlashAux]
  | cons c cs ih =>
      intro acc
      by_cases hc : c = '/'
      · subst hc; simp [splitSlashAux, ih]
      · simp [splitSlashAux, hc, ih]

theorem foldl_norm_step_no_up (segs : List String) :
    ∀ st, (∀ s ∈ segs, s ≠ "..") →
      segs.foldl norm_step st = st ++ segs.filter keep_seg := by
  induction segs with
  | nil => intro st _; simp
  | cons s segs ih =>
      intro st hs
      have hns : s ≠ ".." := hs s (by simp)
      by_cases hk : s = "" ∨ s = "."
      · have h1 : norm_step st s = st := by simp [norm_step, hk]
        have h2 : keep_seg s = false := by
          rcases hk with h | h <;> simp [keep_seg, h]
        simp only [List.foldl_cons, h1, List.filter_cons, h2, Bool.false_eq_true,
          if_false]
        exact ih st (fun x hx => hs x (by simp [hx]))
      · have h1 : norm_step st s = st ++ [s] := by
          simp [norm_step, hk, hns]
        have h2 : keep_seg s = true := by
          push_neg at hk
          simp [keep_seg, hk.1, hk.2]
        simp only [List.foldl_cons, h1, List.filter_cons, h2, if_true]
        rw [ih (st ++ [s]) (fun x hx => hs x (by simp [hx]))]
        simp

theorem resolve_join (td name : String)
    (hslash : lastIsSlash td = false) (hne : td ≠ "") (habs : isAbsPath name = false)
    (hnoup : ∀ s ∈ split_slash name, s ≠ "..") :
    resolve_segs (py_path_join td name) =
      resolve_segs td ++ (split_slash name).filter keep_seg := by
  have hjoin : py_path_join td name = (td ++ "/") ++ name := by
    simp [py_path_join, habs, hne, hslash]
  have hdata : ((td ++ "/") ++ name).data = td.data ++ '/' :: name.data := by
    rw [data_append, data_append, List.append_assoc]
    rfl
  unfold resolve_segs
  rw [hjoin]
  unfold split_slash
  rw [hdata, splitSlashAux_append td.data name.data [], List.foldl_append]
  exact foldl_norm_step_no_up _ _ hnoup

theorem segsPrefixOf_append (l t : List String) : segsPrefixOf l (l ++ t) = true := by
  induction l with
  | nil => rfl
  | cons a as ih => simp [segsPrefixOf, ih]

/-- Claim C7 as stated is false: the materialization loop performs no
path validation and cannot fail.  For the mapping with filename
"../evil.txt" it happily produces the write target "/tmp/t/../evil.txt",
which resolves outside the workspace directory, and no InvalidPathError
exists anywhere in the code. -/
theorem c7_traversal_counterexample :
    materialize_targets "/tmp/t" [("../evil.txt", "x")] = [("/tmp/t/../evil.txt", "x")] ∧
    under_dir "/tmp/t" "/tmp/t/../evil.txt" = false := by
  exact ⟨by decide, by decide⟩

/-- Claim C7, amended: materialization never fails — every filename is
joined to the temp directory with `os.path.join`, so an absolute filename
replaces the workspace path outright and a parent-traversing one escapes
it, with the subprocess still spawned; only filenames that are relative
and free of ".." segments are guaranteed to resolve under the temp
directory. -/
theorem c7_path_validation_amended (temp_dir name : String)
    (hslash : lastIsSlash temp_dir = false) (hne : temp_dir ≠ "") :
    (isAbsPath name = true → py_path_join temp_dir name = name) ∧
    (isAbsPath name = false → (∀ s ∈ split_slash name, s ≠ "..") →
      under_dir temp_dir (py_path_join temp_dir name) = true) := by
  constructor
  · intro habs; simp [py_path_join, habs]
  · intro habs hnoup
    unfold under_dir
    rw [resolve_join temp_dir name hslash hne habs hnoup]
    exact segsPrefixOf_append _ _

/-- Witness for the amended C7 at a workspace "/tmp/t" and the relative,
traversal-free filename "sub/f.py". -/
theorem c7_path_validation_witness :
    under_dir "/tmp/t" (py_path_join "/tmp/t" "sub/f.py") = true :=
  (c7_path_validation_amended "/tmp/t" "sub/f.py" (by decide) (by decide)).2
    (by decide) (by decide)

/-- Claim C8 is right and the code is wrong: the repository's own test
asserts that a request with `files = {}` is rejected with 422, but the
pydantic model declares `files: Optional[dict[str, str]] = None` with no
minimum-size constraint, so validation accepts the empty mapping and the
handler proceeds — the very first step of `collect_aider_output` creates
the workspace directory. -/
theorem c8_empty_files_validation :
    parse_aider_request
        (Json.obj [("message", Json.str "add a docstring to this function"),
                   ("files", Json.obj [])]) =
      some { message := "add a docstring to this function", files := some [],
             auto_commits := true, dirty_commits := true, dry_run := false,
             root := ".", stream := true } ∧
    Step.createWorkspace ∈ request_trace true false 0 :=
  ⟨rfl, by decide⟩

/-- Claim C9 as stated is false: the constructed vector contains the flag
"--no-show-model-warnings", which is none of the elements the claim
enumerates, so the claim's vector and the code's vector differ. -/
theorem c9_argv_counterexample :
    build_cmd "aider" "add docs" true true false "/tmp/t" (some [("f.py", "c")]) ≠
      claim_cmd "aider" "add docs" true true false "/tmp/t" (some [("f.py", "c")]) := by
  decide

/-- Claim C9, amended: the argument vector is exactly the executable
path; "--message" with the instruction as one single token; the three
toggle-selected flags; the model-warning suppression flag
"--no-show-model-warnings"; the confirmation-suppressing flag "--yes";
then the materialized file paths in original input order (none when the
files mapping is empty or absent). -/
theorem c9_argv_amended (exe msg : String) (ac dc dr : Bool) (temp_dir : String)
    (files : Option (List (String × String))) :
    (build_cmd exe msg ac dc dr temp_dir files).take 8 =
      [exe, "--message", msg,
       if ac then "--auto-commits" else "--no-auto-commits",
       if dc then "--dirty-commits" else "--no-dirty-commits",
       if dr then "--dry-run" else "--no-dry-run",
       "--no-show-model-warnings", "--yes"] ∧
    (build_cmd exe msg ac dc dr temp_dir files).drop 8 =
      (if dict_truthy files then (files.getD []).map (fun p => py_path_join temp_dir p.1)
       else []) :=
  ⟨rfl, rfl⟩

end Aider
